import Mathlib

set_option linter.unusedVariables false

/-!
Verification of the layout-sizing core of the house-planner repository.

The land area (`land_cents`) is modelled as an exact rational number; the
Python expression `land_cents * 435.6` is the exact rational product
`land_cents * (2178/5)`.  For the integer land areas the web layer passes,
no threshold (1000 / 2000 sq ft, or 5 / 10 cents) ever falls within the
floating-point rounding error of the product, so the rational model decides
every comparison exactly as the Python code does.
-/

namespace HousePlanner

/-- Room configuration record returned by `calculate_room_config`
(`planner/logic/floor_plan.py`).  The Python dict's `"Total Area"` entry is
the string `f"{sqft:.0f} sq ft"`; we keep the underlying square footage as
an exact rational in `totalAreaSqft`. -/
structure RoomConfig where
  Bedrooms : ℕ
  Bathrooms : ℕ
  Kitchen : ℕ
  Hall : ℕ
  Parking : String
  Balcony : String
  totalAreaSqft : ℚ
  deriving DecidableEq, Repr

/-- The square-footage derivation `sqft = land_cents * 435.6` shared by
`calculate_room_config`, `create_floor_plan` and the views. -/
def sqftOf (land_cents : ℚ) : ℚ := land_cents * 435.6

/-- `get_house_type` from `planner/logic/floor_plan.py` (lines 5-14). -/
def get_house_type (land_cents : ℚ) : String :=
  if land_cents ≤ 5 then "Single Floor House"
  else if land_cents ≤ 10 then "Duplex"
  else "Villa"

/-- `calculate_room_config` from `planner/logic/floor_plan.py`
(lines 16-51). -/
def calculate_room_config (land_cents : ℚ) : RoomConfig :=
  if sqftOf land_cents ≤ 1000 then
    ⟨2, 1, 1, 1, "1 compact", "Small balcony", sqftOf land_cents⟩
  else if sqftOf land_cents ≤ 2000 then
    ⟨3, 2, 1, 1, "1 car", "Medium balcony", sqftOf land_cents⟩
  else
    ⟨4, 3, 2, 2, "2-car garage", "Large balcony + terrace", sqftOf land_cents⟩

/-- The four numeric room counts of a configuration, in the order
(Bedrooms, Bathrooms, Kitchen, Hall). -/
def roomCounts (c : RoomConfig) : ℕ × ℕ × ℕ × ℕ :=
  (c.Bedrooms, c.Bathrooms, c.Kitchen, c.Hall)

/-- `create_floor_plan` from `planner/logic/blender_3d.py` (lines 25-35),
simulated path (`BLENDER_AVAILABLE = False`): returns the (width, length)
pair selected by the square-footage thresholds.  `house_type` and
`room_config` are accepted, as in the source signature, but unused on this
path. -/
def create_floor_plan (land_cents : ℚ) (house_type : String)
    (room_config : RoomConfig) : ℤ × ℤ :=
  if sqftOf land_cents ≤ 1000 then (30, 35)
  else if sqftOf land_cents ≤ 2000 then (40, 50)
  else (50, 70)

/-- `create_detailed_floor_plan` from `planner/logic/blender_3d.py`
(lines 346-356), simulated path (`BLENDER_AVAILABLE = False`). -/
def create_detailed_floor_plan (land_cents : ℚ) (house_type : String)
    (room_config : RoomConfig) : ℤ × ℤ :=
  if sqftOf land_cents ≤ 1000 then (30, 35)
  else if sqftOf land_cents ≤ 2000 then (40, 50)
  else (50, 70)

/-- Square footage as computed in `planner/views.py` line 93:
`int(round(land_cents * 435.6))`. -/
def views_sqft (land_cents : ℤ) : ℤ := round (sqftOf land_cents)

/-- Fallback-GLB selection in `planner/views.py` `result` (lines 118-125). -/
def result_fallback_glb (land_cents : ℤ) : String :=
  if land_cents ≤ 3 then "1bhk.glb"
  else if 4 ≤ land_cents ∧ land_cents ≤ 6 then "2bhk.glb"
  else if 7 ≤ land_cents ∧ land_cents ≤ 10 then "3bhk.glb"
  else "villa.glb"

/-- Fallback-GLB selection in `planner/views.py` `download_3d_model`
(lines 593-602). -/
def download_3d_model_glb (land_cents : ℤ) : String :=
  if land_cents ≤ 3 then "1bhk.glb"
  else if 4 ≤ land_cents ∧ land_cents ≤ 6 then "2bhk.glb"
  else if 7 ≤ land_cents ∧ land_cents ≤ 10 then "3bhk.glb"
  else "villa.glb"

/-- Python's `s.upper().startswith(pre)` for the ASCII strings involved:
the characters of `pre` are a prefix of the uppercased characters of
`s`. -/
def upper_startsWith (s pre : String) : Bool :=
  pre.data.isPrefixOf (s.data.map Char.toUpper)

/-- Report-variant selection in the fallback branch of `planner/views.py`
`result` (lines 146-231): the chained
`str(house_type).upper().startswith('1BHK' / '2BHK' / '3BHK')` tests, with
the Villa-style report as the default branch.  The result names which of
the four report variants is produced. -/
def fallback_report_variant (house_type : String) : String :=
  if upper_startsWith house_type "1BHK" then "1BHK"
  else if upper_startsWith house_type "2BHK" then "2BHK"
  else if upper_startsWith house_type "3BHK" then "3BHK"
  else "Villa"

end HousePlanner

open HousePlanner

/-- C1: for every land area, `calculate_room_config` computes
`sqft = land_cents * 435.6` and returns exactly one of the three fixed
room-count records by the thresholds `sqft ≤ 1000`, `1000 < sqft ≤ 2000`,
`2000 < sqft`; and `create_floor_plan` returns exactly one of the tuples
(30,35), (40,50), (50,70) by the same thresholds. -/
theorem claim1_threshold_lookup (A : ℚ) (ht : String)
    (rc : HousePlanner.RoomConfig) :
    HousePlanner.sqftOf A = A * 435.6 ∧
    ((HousePlanner.sqftOf A ≤ 1000 ∧
        HousePlanner.roomCounts (HousePlanner.calculate_room_config A)
          = (2, 1, 1, 1) ∧
        HousePlanner.create_floor_plan A ht rc = (30, 35)) ∨
     (1000 < HousePlanner.sqftOf A ∧ HousePlanner.sqftOf A ≤ 2000 ∧
        HousePlanner.roomCounts (HousePlanner.calculate_room_config A)
          = (3, 2, 1, 1) ∧
        HousePlanner.create_floor_plan A ht rc = (40, 50)) ∨
     (2000 < HousePlanner.sqftOf A ∧
        HousePlanner.roomCounts (HousePlanner.calculate_room_config A)
          = (4, 3, 2, 2) ∧
        HousePlanner.create_floor_plan A ht rc = (50, 70))) := by
  refine ⟨rfl, ?_⟩
  unfold HousePlanner.calculate_room_config HousePlanner.create_floor_plan
    HousePlanner.roomCounts
  by_cases h1 : HousePlanner.sqftOf A ≤ 1000
  · left; simp [h1]
  · by_cases h2 : HousePlanner.sqftOf A ≤ 2000
    · right; left
      refine ⟨by linarith, h2, ?_⟩
      simp [h1, h2]
    · right; right
      refine ⟨by linarith, ?_⟩
      simp [h1, h2]

/-- C2: for all land areas `A1 ≤ A2`, every numeric room count of
`calculate_room_config A1` is at most the corresponding count of
`calculate_room_config A2`, and the derived square footage is
non-decreasing in the land area. -/
theorem claim2_room_counts_monotone (A1 A2 : ℚ) (h : A1 ≤ A2) :
    sqftOf A1 ≤ sqftOf A2 ∧
    (calculate_room_config A1).Bedrooms ≤ (calculate_room_config A2).Bedrooms ∧
    (calculate_room_config A1).Bathrooms ≤ (calculate_room_config A2).Bathrooms ∧
    (calculate_room_config A1).Kitchen ≤ (calculate_room_config A2).Kitchen ∧
    (calculate_room_config A1).Hall ≤ (calculate_room_config A2).Hall := by
  have hs : sqftOf A1 ≤ sqftOf A2 := by
    unfold sqftOf
    exact mul_le_mul_of_nonneg_right h (by norm_num)
  refine ⟨hs, ?_⟩
  unfold calculate_room_config
  split_ifs <;> simp_all <;> linarith

/-- C2 witness: instantiation at the concrete land areas 1 ≤ 2. -/
theorem claim2_room_counts_monotone_witness :
    sqftOf 1 ≤ sqftOf 2 ∧
    (calculate_room_config 1).Bedrooms ≤ (calculate_room_config 2).Bedrooms ∧
    (calculate_room_config 1).Bathrooms ≤ (calculate_room_config 2).Bathrooms ∧
    (calculate_room_config 1).Kitchen ≤ (calculate_room_config 2).Kitchen ∧
    (calculate_room_config 1).Hall ≤ (calculate_room_config 2).Hall :=
  claim2_room_counts_monotone 1 2 (by norm_num)

/-- C3: every land area `A ≤ 1000/435.6` resolves to the smallest tier:
the 2-bedroom record and the house type "Single Floor House". -/
theorem claim3_smallest_tier (A : ℚ) (h : A ≤ 1000 / 435.6) :
    roomCounts (calculate_room_config A) = (2, 1, 1, 1) ∧
    get_house_type A = "Single Floor House" := by
  have hsq : sqftOf A ≤ 1000 := by
    unfold sqftOf
    nlinarith
  have h5 : A ≤ 5 := by
    have : (1000 : ℚ) / 435.6 ≤ 5 := by norm_num
    linarith
  constructor
  · simp [calculate_room_config, roomCounts, hsq]
  · simp [get_house_type, h5]

/-- C3 witness: instantiation at the concrete land area 2. -/
theorem claim3_smallest_tier_witness :
    roomCounts (calculate_room_config 2) = (2, 1, 1, 1) ∧
    get_house_type 2 = "Single Floor House" :=
  claim3_smallest_tier 2 (by norm_num)

/-- C4: every input exceeding the known thresholds defaults to the largest
tier: `get_house_type` returns "Villa" for `land_cents > 10`, and
`calculate_room_config` returns the 4-bedroom record when
`sqft = land_cents * 435.6 > 2000`.  (The embedded functions are total, so
no error condition arises for any input value.) -/
theorem claim4_largest_tier_default (A : ℚ) :
    (10 < A → get_house_type A = "Villa") ∧
    (2000 < sqftOf A → roomCounts (calculate_room_config A) = (4, 3, 2, 2)) := by
  constructor
  · intro h
    simp only [get_house_type]
    rw [if_neg (by linarith), if_neg (by linarith)]
  · intro h
    simp only [calculate_room_config, roomCounts]
    rw [if_neg (by linarith), if_neg (by linarith)]

/-- C4 witness: instantiation at the concrete land area 11
(sqft = 11 * 435.6 = 4791.6 > 2000). -/
theorem claim4_largest_tier_default_witness :
    get_house_type 11 = "Villa" ∧
    roomCounts (calculate_room_config 11) = (4, 3, 2, 2) :=
  ⟨(claim4_largest_tier_default 11).1 (by norm_num),
   (claim4_largest_tier_default 11).2 (by norm_num [sqftOf])⟩

/-- C5: a land area exactly at a threshold resolves to the lower tier, the
comparisons being inclusive: `get_house_type 5 = "Single Floor House"`,
`get_house_type 10 = "Duplex"`, and a square footage exactly 1000
(respectively 2000) selects the 2-bedroom (respectively 3-bedroom)
record. -/
theorem claim5_inclusive_boundaries (A : ℚ) :
    get_house_type 5 = "Single Floor House" ∧
    get_house_type 10 = "Duplex" ∧
    (sqftOf A = 1000 → roomCounts (calculate_room_config A) = (2, 1, 1, 1)) ∧
    (sqftOf A = 2000 → roomCounts (calculate_room_config A) = (3, 2, 1, 1)) := by
  refine ⟨?_, ?_, ?_, ?_⟩
  · simp [get_house_type]
  · norm_num [get_house_type]
  · intro h
    simp [calculate_room_config, roomCounts, h]
  · intro h
    simp only [calculate_room_config, roomCounts, h]
    norm_num

/-- C5 witness: instantiation at land areas 2500/1089 (sqft exactly 1000)
and 5000/1089 (sqft exactly 2000). -/
theorem claim5_inclusive_boundaries_witness :
    roomCounts (calculate_room_config (2500 / 1089)) = (2, 1, 1, 1) ∧
    roomCounts (calculate_room_config (5000 / 1089)) = (3, 2, 1, 1) :=
  ⟨(claim5_inclusive_boundaries (2500 / 1089)).2.2.1 (by norm_num [sqftOf]),
   (claim5_inclusive_boundaries (5000 / 1089)).2.2.2 (by norm_num [sqftOf])⟩

/-- C6: every non-positive land area silently yields the baseline tier-1
results: "Single Floor House" and the 2-bedroom record.  Both embedded
functions are total, so no exception is possible for any input. -/
theorem claim6_nonpositive_defaults (A : ℚ) (h : A ≤ 0) :
    get_house_type A = "Single Floor House" ∧
    roomCounts (calculate_room_config A) = (2, 1, 1, 1) := by
  have h5 : A ≤ 5 := by linarith
  have hsq : sqftOf A ≤ 1000 := by
    unfold sqftOf
    nlinarith
  constructor
  · simp [get_house_type, h5]
  · simp [calculate_room_config, roomCounts, hsq]

/-- C6 witness: instantiation at land area 0. -/
theorem claim6_nonpositive_defaults_witness :
    get_house_type 0 = "Single Floor House" ∧
    roomCounts (calculate_room_config 0) = (2, 1, 1, 1) :=
  claim6_nonpositive_defaults 0 (by norm_num)

/-- C7: the derived square footage equals `A * 435.6` exactly, the views
expression is the rounding of that same product, and the computation is
deterministic: the room configuration (and the square footage) is a
function of the land area alone, so any two evaluations at the same input
agree. -/
theorem claim7_sqft_deterministic (A : ℚ) (lc : ℤ) :
    sqftOf A = A * 435.6 ∧
    views_sqft lc = round ((lc : ℚ) * 435.6) ∧
    (∀ B : ℚ, B = A →
      calculate_room_config B = calculate_room_config A ∧
      sqftOf B = sqftOf A) := by
  refine ⟨rfl, rfl, ?_⟩
  intro B hBA
  rw [hBA]
  exact ⟨rfl, rfl⟩

/-- C7 witness: instantiation at land area 1. -/
theorem claim7_sqft_deterministic_witness :
    sqftOf 1 = 1 * 435.6 ∧
    calculate_room_config 1 = calculate_room_config 1 :=
  ⟨(claim7_sqft_deterministic 1 1).1,
   ((claim7_sqft_deterministic 1 1).2.2 1 rfl).1⟩

/-- C8: on the simulated path, `create_floor_plan` and
`create_detailed_floor_plan` return equal (width, length) pairs for every
land area, house type and room configuration; the pair is one of (30,35),
(40,50), (50,70) by the square-footage thresholds, and is independent of
the house type and room configuration. -/
theorem claim8_simulated_paths_agree (A : ℚ) (ht ht2 : String)
    (rc rc2 : RoomConfig) :
    create_floor_plan A ht rc = create_detailed_floor_plan A ht2 rc2 ∧
    ((sqftOf A ≤ 1000 ∧ create_floor_plan A ht rc = (30, 35)) ∨
     (1000 < sqftOf A ∧ sqftOf A ≤ 2000 ∧
        create_floor_plan A ht rc = (40, 50)) ∨
     (2000 < sqftOf A ∧ create_floor_plan A ht rc = (50, 70))) := by
  refine ⟨rfl, ?_⟩
  unfold create_floor_plan
  by_cases h1 : sqftOf A ≤ 1000
  · left; simp [h1]
  · by_cases h2 : sqftOf A ≤ 2000
    · right; left
      refine ⟨by linarith, h2, ?_⟩
      simp [h1, h2]
    · right; right
      refine ⟨by linarith, ?_⟩
      simp [h1, h2]

/-- C9: the chained fallback-GLB conditions partition the integers —
exactly one of the four bands (≤ 3, [4,6], [7,10], the default) holds for
every integer land area — so exactly one of the four files is selected,
and `result` and `download_3d_model` select the same file. -/
theorem claim9_glb_partition (n : ℤ) :
    ((if n ≤ 3 then (1 : ℕ) else 0) +
     (if 4 ≤ n ∧ n ≤ 6 then (1 : ℕ) else 0) +
     (if 7 ≤ n ∧ n ≤ 10 then (1 : ℕ) else 0) +
     (if ¬n ≤ 3 ∧ ¬(4 ≤ n ∧ n ≤ 6) ∧ ¬(7 ≤ n ∧ n ≤ 10) then (1 : ℕ) else 0)
       = 1) ∧
    result_fallback_glb n = download_3d_model_glb n ∧
    (result_fallback_glb n = "1bhk.glb" ∨ result_fallback_glb n = "2bhk.glb" ∨
     result_fallback_glb n = "3bhk.glb" ∨ result_fallback_glb n = "villa.glb") := by
  refine ⟨?_, rfl, ?_⟩
  · split_ifs <;> omega
  · unfold result_fallback_glb
    split_ifs <;> simp

/-- C10: every string `get_house_type` can return fails all of the
uppercased 1BHK/2BHK/3BHK tests of the fallback report generation, so the
fallback path always produces the Villa-variant reports. -/
theorem claim10_fallback_reports_always_villa (A : ℚ) :
    upper_startsWith (get_house_type A) "1BHK" = false ∧
    upper_startsWith (get_house_type A) "2BHK" = false ∧
    upper_startsWith (get_house_type A) "3BHK" = false ∧
    fallback_report_variant (get_house_type A) = "Villa" := by
  unfold get_house_type
  split_ifs <;> refine ⟨?_, ?_, ?_, ?_⟩ <;> decide
